import Mathlib

/-!
Shallow embedding of the diagnostic / error-reporting layer of the
`parol_runtime` parser runtime (file `src/errors.rs`), together with
theorems settling the specification claims about it.

Rust strings are modelled as Lean `String`; byte offsets are modelled as
character offsets into the captured text (the embedding's texts are
ASCII-compatible, so the two coincide on every concrete input used here).
The file system and the external `miette` renderer crate are modelled at
their interface boundary, as the specification itself does in its section
on external interfaces.
-/

namespace ParolRuntime

/-! ## Basic string helper lemmas -/

theorem string_data_inj {a b : String} (h : a.data = b.data) : a = b := by
  cases a; cases b; exact congrArg String.mk h

theorem string_append_data (a b : String) : (a ++ b).data = a.data ++ b.data := by
  cases a; cases b; rfl

theorem string_append_assoc (a b c : String) : a ++ b ++ c = a ++ (b ++ c) := by
  apply string_data_inj
  simp [string_append_data]

theorem string_empty_append (a : String) : "" ++ a = a := by
  apply string_data_inj
  simp [string_append_data]

theorem string_append_empty (a : String) : a ++ "" = a := by
  apply string_data_inj
  simp [string_append_data]

theorem string_append_ne_empty_left (a b : String) (h : a ≠ "") : a ++ b ≠ "" := by
  intro hab
  apply h
  apply string_data_inj
  have := congrArg String.data hab
  rw [string_append_data] at this
  rcases List.append_eq_nil.mp this with ⟨h1, _⟩
  simpa using h1

/-! ## Spans, paths, sources

`SourceSpan` is miette's byte-offset plus length pair.
`OsPath` models a `Cow<'static, Path>` at the only interface the code
uses: `Path::to_str`, which yields `some` text exactly when the path is
representable as UTF-8. -/

structure SourceSpan where
  offset : Nat
  length : Nat
deriving DecidableEq, Repr

structure OsPath where
  toStr : Option String
deriving DecidableEq, Repr

structure IOError where
  message : String
deriving DecidableEq, Repr

/-- The low-level structural-storage failure wrapped by
`ParserError::IdTreeError` (`id_tree::NodeIdError`, external crate),
modelled by its rendered `Display` message. -/
structure NodeIdError where
  message : String
deriving DecidableEq, Repr

/-- miette's `NamedSource`: a display name paired with a source-code
object; the source-code behaviour of the stored object is fully
determined by its text, recorded here as `sourceText`. -/
structure NamedSource where
  name : String
  sourceText : String
deriving DecidableEq, Repr

/-! ## ExpectedSet (`TokenVec`) -/

/-- `TokenVec` from `src/errors.rs`: a wrapper around a growable vector
of token-description strings. -/
abbrev TokenVec := List String

/-- `TokenVec::push`: appends one descriptor, nothing else. -/
def TokenVec.push (v : TokenVec) (t : String) : TokenVec :=
  v ++ [t]

/-- The `Display` impl for `TokenVec`: a left fold that appends `", "`
before the next descriptor exactly when the accumulator is non-empty
(`!acc.is_empty()` in the source). -/
def TokenVec.fmt (v : TokenVec) : String :=
  v.foldl (fun acc e => (if acc = "" then acc else acc ++ ", ") ++ e) ""

/-- Spec-side definition, for comparison only: the descriptors joined
with `", "` in insertion order, as the specification words describe. -/
def joinedWithCommaSpace : List String → String
  | [] => ""
  | [t] => t
  | t :: ts => t ++ ", " ++ joinedWithCommaSpace ts

/-- Concatenation of `", " ++ t` over a list; the tail shape of the fold. -/
def tailJoin : List String → String
  | [] => ""
  | t :: ts => ", " ++ t ++ tailJoin ts

theorem tokenVec_foldl_of_ne_empty (ts : List String) :
    ∀ acc : String, acc ≠ "" →
      ts.foldl (fun acc e => (if acc = "" then acc else acc ++ ", ") ++ e) acc
        = acc ++ tailJoin ts := by
  induction ts with
  | nil => intro acc _; simp [tailJoin, string_append_empty]
  | cons t ts ih =>
    intro acc hacc
    have hstep :
        (ts.foldl (fun acc e => (if acc = "" then acc else acc ++ ", ") ++ e)
          ((if acc = "" then acc else acc ++ ", ") ++ t))
          = (acc ++ ", " ++ t) ++ tailJoin ts := by
      rw [if_neg hacc]
      exact ih (acc ++ ", " ++ t)
        (string_append_ne_empty_left _ _ (string_append_ne_empty_left _ _ hacc))
    simp only [List.foldl_cons]
    rw [if_neg hacc] at hstep ⊢
    rw [hstep, tailJoin, string_append_assoc, string_append_assoc,
      ← string_append_assoc ", " t (tailJoin ts)]

theorem joinedWithCommaSpace_cons (t : String) (ts : List String) :
    joinedWithCommaSpace (t :: ts) = t ++ tailJoin ts := by
  induction ts generalizing t with
  | nil => simp [joinedWithCommaSpace, tailJoin, string_append_empty]
  | cons t2 ts ih =>
    have hdef : joinedWithCommaSpace (t :: t2 :: ts)
        = t ++ ", " ++ joinedWithCommaSpace (t2 :: ts) := rfl
    rw [hdef, tailJoin, ih, string_append_assoc, string_append_assoc]

/-! ## Tokens and `UnexpectedToken` -/

/-- Modelled from the spec: the token abstraction of the lexer module is
not under `src/`; the external-interfaces section says a token exposes a
resolvable source location, an offset plus a length. -/
structure Token where
  offset : Nat
  length : Nat
deriving DecidableEq, Repr

/-- Modelled from the spec: the `From<&Token> for SourceSpan` conversion
lives in the lexer module, not under `src/`; `UnexpectedToken::new`
derives the span from the token's own location metadata (offset and
length), unchanged. -/
def tokenIntoSpan (t : Token) : SourceSpan :=
  ⟨t.offset, t.length⟩

structure UnexpectedToken where
  name : String
  token_type : String
  input : NamedSource
  token : SourceSpan
deriving DecidableEq, Repr

/-- `UnexpectedToken::new` from `src/errors.rs`: converts the token to a
span and stores all four fields verbatim. -/
def UnexpectedToken.new (name token_type : String) (input : NamedSource)
    (token : Token) : UnexpectedToken :=
  ⟨name, token_type, input, tokenIntoSpan token⟩

/-! ## The error enums -/

inductive ParserError where
  | IdTreeError (source : NodeIdError)
  | PredictionErrorWithExpectations (cause : String) (input : NamedSource)
      (error_location : SourceSpan) (unexpected_tokens : List UnexpectedToken)
      (expected_tokens : TokenVec)
  | UnprocessedInput (input : NamedSource) (last_token : SourceSpan)
  | PopOnEmptyScannerStateStack (context : String) (input : NamedSource)
  | InternalError (msg : String)
deriving DecidableEq, Repr

inductive LookaheadError where
  | DataError (msg : String)
  | PredictionError (cause : String)
  | TokenBufferEmptyError
deriving DecidableEq, Repr

/-- The primary `Display` message of each `ParserError` variant, after
the `#[error(...)]` attributes: `IdTreeError` is `#[error(transparent)]`
and forwards its source's message verbatim. -/
def ParserError.message : ParserError → String
  | .IdTreeError source => source.message
  | .PredictionErrorWithExpectations cause _ _ _ expected_tokens =>
      cause ++ "Expecting one of " ++ expected_tokens.fmt
  | .UnprocessedInput _ _ => "Unprocessed input is left after parsing has finished"
  | .PopOnEmptyScannerStateStack context _ =>
      context ++ "Tried to pop from an empty scanner stack"
  | .InternalError msg => msg

/-- The stable diagnostic code of each `ParserError` variant, after the
`#[diagnostic(code(...))]` attributes. -/
def ParserError.code : ParserError → String
  | .IdTreeError _ => "parol_runtime::parser::id_tree_error"
  | .PredictionErrorWithExpectations _ _ _ _ _ => "parol_runtime::parser::syntax_error"
  | .UnprocessedInput _ _ => "parol_runtime::parser::unprocessed_input"
  | .PopOnEmptyScannerStateStack _ _ => "parol_runtime::parser::pop_on_empty_scanner_stack"
  | .InternalError _ => "parol_runtime::parser::internal_error"

/-- The stable diagnostic code of each `LookaheadError` variant. -/
def LookaheadError.code : LookaheadError → String
  | .DataError _ => "parol_runtime::lookahead::generation_error"
  | .PredictionError _ => "parol_runtime::lookahead::production_prediction_error"
  | .TokenBufferEmptyError => "parol_runtime::lookahead::empty_token_buffer"

/-- The five diagnostic codes of the `ParserError` enum, in declaration
order. -/
def parserErrorCodes : List String :=
  ["parol_runtime::parser::id_tree_error",
   "parol_runtime::parser::syntax_error",
   "parol_runtime::parser::unprocessed_input",
   "parol_runtime::parser::pop_on_empty_scanner_stack",
   "parol_runtime::parser::internal_error"]

/-- The three diagnostic codes of the `LookaheadError` enum, in
declaration order. -/
def lookaheadErrorCodes : List String :=
  ["parol_runtime::lookahead::generation_error",
   "parol_runtime::lookahead::production_prediction_error",
   "parol_runtime::lookahead::empty_token_buffer"]

/-! ## `FileSource` -/

structure FileSource where
  file_name : OsPath
  input : String
deriving DecidableEq, Repr

/-- `FileSource::try_new`: reads the named resource fully into memory and
wraps it with its name; the I/O failure of the read is propagated as the
error of the whole call. The file system is the external environment,
passed in as the read oracle `readToString`. -/
def FileSource.try_new (readToString : OsPath → Except IOError String)
    (file_name : OsPath) : Except IOError FileSource :=
  match readToString file_name with
  | .error e => .error e
  | .ok input => .ok ⟨file_name, input⟩

/-- `impl From<FileSource> for NamedSource`: the display name is
`file_name.to_str()` with the fixed fallback `"<Bad file name>"`, and the
file source itself (hence its full text) becomes the source-code object. -/
def NamedSource.ofFileSource (file_source : FileSource) : NamedSource :=
  ⟨(file_source.file_name.toStr).getD "<Bad file name>", file_source.input⟩

/-! ## Span resolution (`SourceCode::read_span`)

`FileSource`'s `SourceCode` impl delegates to the `str` impl of the
external `miette` crate. That impl is modelled here from the spec's
`resolve` contract: return the covered text plus the requested number of
surrounding context lines with their line/column numbers and offsets,
and fail with an out-of-bounds resolution error when the span lies
outside the captured text. -/

inductive MietteError where
  | outOfBounds
deriving DecidableEq, Repr

/-- The contents returned for a resolved span: the context text, the
offset and length of the context region inside the source, and the
line/column of the start of the context region. -/
structure SpanContents where
  data : List Char
  spanOffset : Nat
  spanLength : Nat
  line : Nat
  column : Nat
deriving DecidableEq, Repr

/-- Start index of the line containing position `pos`: step back over
every character of the current line (all characters before `pos` up to,
not including, the previous newline). -/
def lineStart (cs : List Char) (pos : Nat) : Nat :=
  pos - ((cs.take pos).reverse.takeWhile (fun c => c != '\n')).length

/-- Start index of the line `k` lines above the line containing `pos`
(saturating at the start of the text). -/
def linesBack (cs : List Char) (pos : Nat) : Nat → Nat
  | 0 => lineStart cs pos
  | k + 1 =>
    let s := linesBack cs pos k
    if s = 0 then 0 else lineStart cs (s - 1)

/-- End index (exclusive) of the line containing position `pos`: step
forward to the next newline or to the end of the text. -/
def lineEnd (cs : List Char) (pos : Nat) : Nat :=
  pos + ((cs.drop pos).takeWhile (fun c => c != '\n')).length

/-- End index of the line `k` lines below the line containing `pos`
(saturating at the end of the text). -/
def linesFwd (cs : List Char) (pos : Nat) : Nat → Nat
  | 0 => lineEnd cs pos
  | k + 1 =>
    let e := linesFwd cs pos k
    if e < cs.length then lineEnd cs (e + 1) else e

/-- Number of newline characters in a character list; the zero-based
line number of a position is the count over the text before it. -/
def countNewlines (cs : List Char) : Nat :=
  (cs.filter (fun c => c == '\n')).length

/-- Modelled from the spec: `<str as SourceCode>::read_span` of the
external miette crate, which `FileSource::read_span` delegates to. The
resolve contract: expand the span to whole lines plus the requested
context lines before and after, return that region with its position
data, or fail with an out-of-bounds error when the span does not lie
within the text. -/
def strReadSpan (input : String) (span : SourceSpan)
    (context_lines_before context_lines_after : Nat) :
    Except MietteError SpanContents :=
  if span.offset + span.length ≤ input.data.length then
    .ok ⟨(input.data.drop (linesBack input.data span.offset context_lines_before)).take
          (linesFwd input.data (span.offset + span.length) context_lines_after
            - linesBack input.data span.offset context_lines_before),
         linesBack input.data span.offset context_lines_before,
         linesFwd input.data (span.offset + span.length) context_lines_after
           - linesBack input.data span.offset context_lines_before,
         countNewlines (input.data.take (linesBack input.data span.offset context_lines_before)),
         linesBack input.data span.offset context_lines_before
           - lineStart input.data (linesBack input.data span.offset context_lines_before)⟩
  else
    .error .outOfBounds

/-- `impl SourceCode for FileSource` from `src/errors.rs`: pure
delegation of `read_span` to the `str` impl on the captured `input`. -/
def FileSource.read_span (self : FileSource) (span : SourceSpan)
    (context_lines_before context_lines_after : Nat) :
    Except MietteError SpanContents :=
  strReadSpan self.input span context_lines_before context_lines_after

theorem lineStart_le (cs : List Char) (pos : Nat) : lineStart cs pos ≤ pos :=
  Nat.sub_le _ _

theorem linesBack_le (cs : List Char) (pos : Nat) :
    ∀ k, linesBack cs pos k ≤ pos := by
  intro k
  induction k with
  | zero => exact lineStart_le cs pos
  | succ k ih =>
    show (if linesBack cs pos k = 0 then 0 else lineStart cs (linesBack cs pos k - 1)) ≤ pos
    by_cases h : linesBack cs pos k = 0
    · simp [h]
    · rw [if_neg h]
      exact le_trans (le_trans (lineStart_le _ _) (Nat.sub_le _ _)) ih

theorem lineEnd_ge (cs : List Char) (pos : Nat) : pos ≤ lineEnd cs pos :=
  Nat.le_add_right _ _

theorem lineEnd_le_length (cs : List Char) (pos : Nat) (h : pos ≤ cs.length) :
    lineEnd cs pos ≤ cs.length := by
  have hw : ((cs.drop pos).takeWhile (fun c => c != '\n')).length ≤ (cs.drop pos).length :=
    (List.takeWhile_sublist _).length_le
  have := List.length_drop pos cs
  unfold lineEnd
  omega

theorem linesFwd_ge (cs : List Char) (pos : Nat) :
    ∀ k, pos ≤ linesFwd cs pos k := by
  intro k
  induction k with
  | zero => exact lineEnd_ge cs pos
  | succ k ih =>
    show pos ≤ if linesFwd cs pos k < cs.length then lineEnd cs (linesFwd cs pos k + 1)
        else linesFwd cs pos k
    by_cases h : linesFwd cs pos k < cs.length
    · rw [if_pos h]
      exact le_trans ih (le_trans (Nat.le_succ _) (lineEnd_ge _ _))
    · rwa [if_neg h]

theorem linesFwd_le_length (cs : List Char) (pos : Nat) (h : pos ≤ cs.length) :
    ∀ k, linesFwd cs pos k ≤ cs.length := by
  intro k
  induction k with
  | zero => exact lineEnd_le_length cs pos h
  | succ k ih =>
    show (if linesFwd cs pos k < cs.length then lineEnd cs (linesFwd cs pos k + 1)
        else linesFwd cs pos k) ≤ cs.length
    by_cases hlt : linesFwd cs pos k < cs.length
    · rw [if_pos hlt]
      exact lineEnd_le_length cs _ hlt
    · rwa [if_neg hlt]

/-- The context slice restricted back to the requested span is exactly
the text the span covers in the source. -/
theorem slice_covers (cs : List Char) (s off len e : Nat)
    (hs : s ≤ off) (he : off + len ≤ e) :
    (((cs.drop s).take (e - s)).drop (off - s)).take len
      = (cs.drop off).take len := by
  rw [List.drop_take, List.drop_drop]
  have h1 : s + (off - s) = off := by omega
  rw [h1, List.take_take]
  have h2 : min len (e - s - (off - s)) = len := by omega
  rw [h2]

/-! ## Claim theorems -/

/-- C1 (counterexample): the lookahead engine's `TokenBufferEmptyError`
is a failure of the lookahead engine whose diagnostic code is not the
code of any of the five `ParserError` variants, so the five-variant
taxonomy is not the sole error surface of lookahead operations. -/
theorem lookahead_error_outside_five_variant_taxonomy :
    LookaheadError.TokenBufferEmptyError.code ∉ parserErrorCodes ∧
    parserErrorCodes.length = 5 := by
  decide

/-- C1 (amended): the diagnostic error surface is split across two
closed, flat enums — `ParserError` with exactly the five listed variants
for parsing-engine failures, and `LookaheadError` with exactly three
variants for lookahead-engine failures; every value of either enum
carries one of the enum's stable diagnostic codes, the codes are
pairwise distinct, and no lookahead code is a parser code. -/
theorem error_taxonomy_two_closed_enums :
    (∀ e : ParserError, e.code ∈ parserErrorCodes) ∧
    (∀ e : LookaheadError, e.code ∈ lookaheadErrorCodes) ∧
    parserErrorCodes.length = 5 ∧
    lookaheadErrorCodes.length = 3 ∧
    parserErrorCodes.Nodup ∧
    lookaheadErrorCodes.Nodup ∧
    lookaheadErrorCodes.inter parserErrorCodes = [] := by
  refine ⟨?_, ?_, by decide, by decide, by decide, by decide, by decide⟩
  · intro e
    cases e <;> simp [ParserError.code, parserErrorCodes]
  · intro e
    cases e <;> simp [LookaheadError.code, lookaheadErrorCodes]

/-- C2 (counterexample): rendering is not plain joining with `", "` for
every sequence of descriptors — a leading empty descriptor contributes
no separator, so `["", "B"]` renders to `"B"` while joining the pushed
descriptors with `", "` would give `", B"`. -/
theorem tokenVec_fmt_drops_separator_after_leading_empty :
    TokenVec.fmt ["", "B"] = "B" ∧
    joinedWithCommaSpace ["", "B"] = ", B" ∧
    TokenVec.fmt ["", "B"] ≠ joinedWithCommaSpace ["", "B"] := by
  decide

/-- C2 (amended): `push` appends one descriptor with no validation and
no deduplication, and rendering joins the descriptors with `", "` in
insertion order whenever the first pushed descriptor is non-empty (when
leading descriptors are empty the fold omits their separators); an empty
set renders to `""`, and `["A", "B", "C"]` renders to `"A, B, C"`. -/
theorem tokenVec_push_appends_and_fmt_joins (t : String) (ts : List String)
    (h : t ≠ "") :
    (∀ (v : TokenVec) (d : String),
      v.push d = v ++ [d] ∧ (v.push d).length = v.length + 1) ∧
    TokenVec.fmt (t :: ts) = joinedWithCommaSpace (t :: ts) ∧
    TokenVec.fmt [] = "" ∧
    TokenVec.fmt ["A", "B", "C"] = "A, B, C" := by
  refine ⟨fun v d => ⟨rfl, by simp [TokenVec.push]⟩, ?_, rfl, by decide⟩
  have hstep : (if ("" : String) = "" then ("" : String) else "" ++ ", ") ++ t = t := by
    rw [if_pos rfl, string_empty_append]
  unfold TokenVec.fmt
  rw [List.foldl_cons, hstep, tokenVec_foldl_of_ne_empty ts t h,
    joinedWithCommaSpace_cons]

/-- C2 (witness): the amended rendering statement at the concrete
descriptor sequence `["A", "B", "C"]`. -/
theorem tokenVec_push_appends_and_fmt_joins_witness :
    TokenVec.fmt ["A", "B", "C"] = joinedWithCommaSpace ["A", "B", "C"] :=
  (tokenVec_push_appends_and_fmt_joins "A" ["B", "C"] (by decide)).2.1

/-- C3: `UnexpectedToken::new` stores the span derived from a
well-formed token unchanged, so the stored span has a non-empty byte
range lying entirely within the text of the snapshot passed as the
`input` argument, and that very snapshot is the one stored. -/
theorem unexpectedToken_new_span_valid (name token_type : String)
    (input : NamedSource) (token : Token)
    (hlen : 0 < token.length)
    (hbound : token.offset + token.length ≤ input.sourceText.length) :
    0 < (UnexpectedToken.new name token_type input token).token.length ∧
    (UnexpectedToken.new name token_type input token).token.offset
        + (UnexpectedToken.new name token_type input token).token.length
      ≤ (UnexpectedToken.new name token_type input token).input.sourceText.length ∧
    (UnexpectedToken.new name token_type input token).input = input :=
  ⟨hlen, hbound, rfl⟩

/-- C3 (witness): the span invariant at a concrete well-formed token
inside a concrete snapshot. -/
theorem unexpectedToken_new_span_valid_witness :
    0 < (UnexpectedToken.new "Num" "7" ⟨"input", "a 7 b"⟩ ⟨2, 1⟩).token.length ∧
    (UnexpectedToken.new "Num" "7" ⟨"input", "a 7 b"⟩ ⟨2, 1⟩).token.offset
        + (UnexpectedToken.new "Num" "7" ⟨"input", "a 7 b"⟩ ⟨2, 1⟩).token.length
      ≤ (UnexpectedToken.new "Num" "7" ⟨"input", "a 7 b"⟩ ⟨2, 1⟩).input.sourceText.length ∧
    (UnexpectedToken.new "Num" "7" ⟨"input", "a 7 b"⟩ ⟨2, 1⟩).input = ⟨"input", "a 7 b"⟩ :=
  unexpectedToken_new_span_valid "Num" "7" ⟨"input", "a 7 b"⟩ ⟨2, 1⟩
    (by decide) (by decide)

/-- C4 (counterexample): converting a `FileSource` whose path is not
representable as UTF-8 text yields the fixed placeholder name, so the
display name is not preserved for every `FileSource`. -/
theorem namedSource_roundtrip_loses_bad_file_name :
    (NamedSource.ofFileSource ⟨⟨none⟩, "text"⟩).name = "<Bad file name>" ∧
    (⟨⟨none⟩, "text"⟩ : FileSource).file_name.toStr
      ≠ some (NamedSource.ofFileSource ⟨⟨none⟩, "text"⟩).name := by
  decide

/-- C4 (amended): converting a `FileSource` to its renderer-facing
`NamedSource` preserves the full source text byte-for-byte for every
`FileSource`, and preserves the display name whenever the name is
representable as UTF-8 text. -/
theorem namedSource_roundtrip_preserves_text_and_utf8_name (fs : FileSource) :
    (NamedSource.ofFileSource fs).sourceText = fs.input ∧
    (∀ s, fs.file_name.toStr = some s → (NamedSource.ofFileSource fs).name = s) := by
  refine ⟨rfl, ?_⟩
  intro s hs
  simp [NamedSource.ofFileSource, hs]

/-- C4 (witness): the round-trip at a concrete `FileSource` with a
UTF-8-representable name. -/
theorem namedSource_roundtrip_preserves_text_and_utf8_name_witness :
    (NamedSource.ofFileSource ⟨⟨some "main.par"⟩, "let x;"⟩).sourceText = "let x;" ∧
    (NamedSource.ofFileSource ⟨⟨some "main.par"⟩, "let x;"⟩).name = "main.par" :=
  ⟨(namedSource_roundtrip_preserves_text_and_utf8_name ⟨⟨some "main.par"⟩, "let x;"⟩).1,
   (namedSource_roundtrip_preserves_text_and_utf8_name ⟨⟨some "main.par"⟩, "let x;"⟩).2
     "main.par" rfl⟩

/-- C5: the primary message of `PredictionErrorWithExpectations` is the
free-text cause followed immediately, with no separator, by
`"Expecting one of "` and the expected-token set rendered in insertion
order; with an empty cause the message is exactly `"Expecting one of "`
followed by the rendered expected set. -/
theorem prediction_error_message_interpolation (cause : String)
    (input : NamedSource) (error_location : SourceSpan)
    (unexpected_tokens : List UnexpectedToken) (expected_tokens : TokenVec) :
    (ParserError.PredictionErrorWithExpectations cause input error_location
        unexpected_tokens expected_tokens).message
      = cause ++ "Expecting one of " ++ expected_tokens.fmt ∧
    (cause = "" →
      (ParserError.PredictionErrorWithExpectations cause input error_location
          unexpected_tokens expected_tokens).message
        = "Expecting one of " ++ expected_tokens.fmt) := by
  refine ⟨rfl, ?_⟩
  intro hc
  subst hc
  show ("" : String) ++ "Expecting one of " ++ expected_tokens.fmt
      = "Expecting one of " ++ expected_tokens.fmt
  rw [string_empty_append]

/-- C5 (witness): the message at an empty cause and the concrete
expected set `["Num", "Id"]`. -/
theorem prediction_error_message_interpolation_witness :
    (ParserError.PredictionErrorWithExpectations "" ⟨"f", "1 + + 2"⟩ ⟨4, 1⟩
        [] ["Num", "Id"]).message
      = "Expecting one of " ++ TokenVec.fmt ["Num", "Id"] :=
  (prediction_error_message_interpolation "" ⟨"f", "1 + + 2"⟩ ⟨4, 1⟩
    [] ["Num", "Id"]).2 rfl

/-- C6: `IdTreeError` is declared `#[error(transparent)]`, so its
rendered message is the wrapped `id_tree::NodeIdError` message verbatim,
with nothing prepended or appended. -/
theorem idTreeError_message_transparent (source : NodeIdError) :
    (ParserError.IdTreeError source).message = source.message :=
  rfl

/-- C7: `FileSource::try_new` propagates the underlying I/O error of an
unreadable path verbatim, constructing no snapshot, and on a readable
path succeeds with a snapshot whose text is the full contents of the
resource and whose name is the requested path. -/
theorem fileSource_try_new_propagates_io
    (readToString : OsPath → Except IOError String) (file_name : OsPath) :
    (∀ e, readToString file_name = .error e →
      FileSource.try_new readToString file_name = .error e) ∧
    (∀ s, readToString file_name = .ok s →
      FileSource.try_new readToString file_name = .ok ⟨file_name, s⟩) := by
  constructor <;> intro x hx <;> simp [FileSource.try_new, hx]

/-- C7 (witness): `try_new` against a concrete two-file read oracle, at
one readable and one unreadable path. -/
theorem fileSource_try_new_propagates_io_witness :
    FileSource.try_new
        (fun p => if p.toStr = some "good.par" then .ok "a b c"
          else .error ⟨"No such file"⟩) ⟨some "good.par"⟩
      = .ok ⟨⟨some "good.par"⟩, "a b c"⟩ ∧
    FileSource.try_new
        (fun p => if p.toStr = some "good.par" then .ok "a b c"
          else .error ⟨"No such file"⟩) ⟨some "missing.par"⟩
      = .error ⟨"No such file"⟩ :=
  ⟨(fileSource_try_new_propagates_io _ ⟨some "good.par"⟩).2 "a b c" rfl,
   (fileSource_try_new_propagates_io _ ⟨some "missing.par"⟩).1
     ⟨"No such file"⟩ rfl⟩

/-- C8: for every span lying entirely within the captured text,
`read_span` succeeds with contents whose region starts at or before the
span, ends at or after it, stays inside the text, and whose data
restricted to the span is exactly the text the span covers; for every
span reaching outside the captured text it fails with the out-of-bounds
resolution error. -/
theorem fileSource_read_span_resolves (fs : FileSource) (span : SourceSpan)
    (context_lines_before context_lines_after : Nat) :
    (span.offset + span.length ≤ fs.input.length →
      ∃ sc, fs.read_span span context_lines_before context_lines_after = .ok sc ∧
        sc.spanOffset ≤ span.offset ∧
        span.offset + span.length ≤ sc.spanOffset + sc.spanLength ∧
        sc.spanOffset + sc.spanLength ≤ fs.input.length ∧
        sc.data = (fs.input.data.drop sc.spanOffset).take sc.spanLength ∧
        (sc.data.drop (span.offset - sc.spanOffset)).take span.length
          = (fs.input.data.drop span.offset).take span.length) ∧
    (fs.input.length < span.offset + span.length →
      fs.read_span span context_lines_before context_lines_after
        = .error .outOfBounds) := by
  constructor
  · intro h
    have h' : span.offset + span.length ≤ fs.input.data.length := h
    have hs : linesBack fs.input.data span.offset context_lines_before ≤ span.offset :=
      linesBack_le _ _ _
    have he : span.offset + span.length
        ≤ linesFwd fs.input.data (span.offset + span.length) context_lines_after :=
      linesFwd_ge _ _ _
    have hel : linesFwd fs.input.data (span.offset + span.length) context_lines_after
        ≤ fs.input.data.length :=
      linesFwd_le_length _ _ h' _
    have heq : fs.read_span span context_lines_before context_lines_after
        = .ok ⟨(fs.input.data.drop
              (linesBack fs.input.data span.offset context_lines_before)).take
              (linesFwd fs.input.data (span.offset + span.length) context_lines_after
                - linesBack fs.input.data span.offset context_lines_before),
            linesBack fs.input.data span.offset context_lines_before,
            linesFwd fs.input.data (span.offset + span.length) context_lines_after
              - linesBack fs.input.data span.offset context_lines_before,
            countNewlines (fs.input.data.take
              (linesBack fs.input.data span.offset context_lines_before)),
            linesBack fs.input.data span.offset context_lines_before
              - lineStart fs.input.data
                  (linesBack fs.input.data span.offset context_lines_before)⟩ := by
      unfold FileSource.read_span strReadSpan
      rw [if_pos h']
    have hlen : fs.input.length = fs.input.data.length := rfl
    refine ⟨_, heq, hs, ?_, ?_, rfl, slice_covers _ _ _ _ _ hs he⟩
    · dsimp only
      omega
    · dsimp only
      omega
  · intro h
    have h' : ¬ (span.offset + span.length ≤ fs.input.data.length) := by
      have hlen : fs.input.data.length < span.offset + span.length := h
      omega
    unfold FileSource.read_span strReadSpan
    rw [if_neg h']

/-- C8 (witness): a concrete in-bounds resolution with one context line
on each side, and a concrete out-of-bounds failure. -/
theorem fileSource_read_span_resolves_witness :
    (∃ sc, FileSource.read_span ⟨⟨some "main"⟩, "ab\ncd\nef"⟩ ⟨4, 1⟩ 1 1 = .ok sc ∧
      sc.spanOffset ≤ 4 ∧
      4 + 1 ≤ sc.spanOffset + sc.spanLength ∧
      sc.spanOffset + sc.spanLength ≤ ("ab\ncd\nef" : String).length ∧
      sc.data = (("ab\ncd\nef" : String).data.drop sc.spanOffset).take sc.spanLength ∧
      (sc.data.drop (4 - sc.spanOffset)).take 1
        = (("ab\ncd\nef" : String).data.drop 4).take 1) ∧
    FileSource.read_span ⟨⟨some "main"⟩, "ab\ncd\nef"⟩ ⟨7, 5⟩ 0 0
      = .error .outOfBounds :=
  ⟨(fileSource_read_span_resolves ⟨⟨some "main"⟩, "ab\ncd\nef"⟩ ⟨4, 1⟩ 1 1).1
     (by decide),
   (fileSource_read_span_resolves ⟨⟨some "main"⟩, "ab\ncd\nef"⟩ ⟨7, 5⟩ 0 0).2
     (by decide)⟩

/-- C9: the conversion of a `FileSource` to its renderer-consumable
`NamedSource` is a total function: it keeps the full text, keeps any
UTF-8-representable display name, and falls back to the fixed
placeholder `"<Bad file name>"` when the name is not representable,
instead of failing. -/
theorem namedSource_conversion_total (fs : FileSource) :
    (fs.file_name.toStr = none →
      (NamedSource.ofFileSource fs).name = "<Bad file name>") ∧
    (∀ s, fs.file_name.toStr = some s → (NamedSource.ofFileSource fs).name = s) ∧
    (NamedSource.ofFileSource fs).sourceText = fs.input := by
  refine ⟨?_, ?_, rfl⟩
  · intro hn
    simp [NamedSource.ofFileSource, hn]
  · intro s hs
    simp [NamedSource.ofFileSource, hs]

/-- C9 (witness): the fallback at a concrete non-representable name and
the name-keeping case at a concrete representable name. -/
theorem namedSource_conversion_total_witness :
    (NamedSource.ofFileSource ⟨⟨none⟩, "x"⟩).name = "<Bad file name>" ∧
    (NamedSource.ofFileSource ⟨⟨some "a.par"⟩, "y"⟩).name = "a.par" :=
  ⟨(namedSource_conversion_total ⟨⟨none⟩, "x"⟩).1 rfl,
   (namedSource_conversion_total ⟨⟨some "a.par"⟩, "y"⟩).2.1 "a.par" rfl⟩

/-- C10: span resolution depends only on the captured text and the
arguments — two `FileSource` values with identical text and arbitrarily
different display names resolve every span with every pair of
context-line counts identically. -/
theorem read_span_independent_of_name (fs1 fs2 : FileSource)
    (span : SourceSpan) (context_lines_before context_lines_after : Nat)
    (h : fs1.input = fs2.input) :
    fs1.read_span span context_lines_before context_lines_after
      = fs2.read_span span context_lines_before context_lines_after := by
  unfold FileSource.read_span
  rw [h]

/-- C10 (witness): identical resolution for two concretely differing
display names over the same text. -/
theorem read_span_independent_of_name_witness :
    FileSource.read_span ⟨⟨some "a.par"⟩, "line one\nline two"⟩ ⟨3, 2⟩ 1 0
      = FileSource.read_span ⟨⟨none⟩, "line one\nline two"⟩ ⟨3, 2⟩ 1 0 :=
  read_span_independent_of_name ⟨⟨some "a.par"⟩, "line one\nline two"⟩
    ⟨⟨none⟩, "line one\nline two"⟩ ⟨3, 2⟩ 1 0 rfl

end ParolRuntime
